import Mathlib

/-!
Verification development for the SimpleOBS media-composition engine
(namespace SimpleOBS): a shallow embedding of the core lifecycle,
scene-composition and streaming-control code, with theorems checking the
behavioural properties stated in the specification.

Embedding conventions:
* C++ shared pointers to sources (`SourcePtr`) are modelled as heap
  identifiers (`SourceId := Nat`); an empty (null) pointer is `none` of
  `Option SourceId`.  Pointer identity is identifier equality.
* The mutable store of `BaseSource` objects is a `Heap := List SourceState`
  indexed by `SourceId`; mutation through a shared pointer is `List.set`.
* Out-parameters filled on success are modelled with `Option`: a member
  function returning `bool` and filling a frame becomes a function
  returning `Option Frame` (`none` = returned `false`, no frame).
* Logging (`std::cout`, `LOG_*`) is I/O with no effect on program state
  and is dropped.
* Real-time sleeping and thread spawning have no state effect beyond the
  flags the code sets; only those flags are modelled.
-/

namespace SimpleOBS

/-- Heap identifier standing for a `SourcePtr` target (pointer identity). -/
abbrev SourceId := Nat

/-- Monotonic timestamp in microseconds (`FrameTime = std::chrono::microseconds`). -/
abbrev FrameTime := Nat

/-- Video frame metadata from `struct VideoFrame` in include/SimpleOBS.h:
width, height, pixel-format tag, first-plane stride and timestamp.  The raw
pixel buffer pointers (`data[4]`) are borrowed views into producer storage
and are not part of the value model. -/
structure VideoFrame where
  width : Nat
  height : Nat
  format : Nat
  linesize0 : Nat
  timestamp : FrameTime
deriving Repr, DecidableEq

/-- Audio frame metadata from `struct AudioFrame` in include/SimpleOBS.h:
sample count, sample rate, channel count and timestamp.  The raw sample
buffer pointers (`data[8]`) are borrowed views and not part of the value
model. -/
structure AudioFrame where
  samples : Nat
  sample_rate : Nat
  channels : Nat
  timestamp : FrameTime
deriving Repr, DecidableEq

/-- State of a `BaseSource` object (src/sources/BaseSource.cpp): the
immutable name and the `active_` flag toggled by `start`/`stop`. -/
structure SourceState where
  name : String
  active : Bool
deriving Repr, DecidableEq

/-- A dereference of an identifier that points at no live object; it is
never active (used only to totalise heap lookup). -/
def noSource : SourceState := { name := "", active := false }

/-- The store of `BaseSource` objects reachable through shared pointers. -/
abbrev Heap := List SourceState

/-- Dereference a source pointer. -/
def Heap.getS (h : Heap) (id : SourceId) : SourceState :=
  h.getD id noSource

namespace BaseSource

/-- BaseSource constructor: `BaseSource(name) : name_(name), active_(false)`. -/
def new (name : String) : SourceState := { name := name, active := false }

/-- Embeds `BaseSource::start`: sets `active_ = true`. -/
def start (s : SourceState) : SourceState := { s with active := true }

/-- Embeds `BaseSource::stop`: sets `active_ = false`. -/
def stop (s : SourceState) : SourceState := { s with active := false }

/-- Embeds `BaseSource::isActive`: reads `active_`. -/
def isActive (s : SourceState) : Bool := s.active

/-- Embeds `BaseSource::getVideoFrame`: returns `false` (no frame) when
inactive; otherwise fills a 1920x1080 RGBA solid-colour frame with stride
`1920 * 4`, format tag `0` and the current monotonic timestamp, and
returns `true`. -/
def getVideoFrame (s : SourceState) (now : FrameTime) : Option VideoFrame :=
  if !s.active then none
  else some { width := 1920, height := 1080, format := 0,
              linesize0 := 1920 * 4, timestamp := now }

/-- Embeds `BaseSource::getAudioFrame`: returns `false` (no frame) when
inactive; otherwise fills a silence frame with 480 samples at 48000 Hz,
1 channel and the current monotonic timestamp, and returns `true`. -/
def getAudioFrame (s : SourceState) (now : FrameTime) : Option AudioFrame :=
  if !s.active then none
  else some { samples := 480, sample_rate := 48000, channels := 1,
              timestamp := now }

end BaseSource

/-- Mutation of the heap through a shared pointer: `source->stop()`. -/
def Heap.stopAt (h : Heap) (id : SourceId) : Heap :=
  h.set id (BaseSource.stop (h.getS id))

/-- Mutation of the heap through a shared pointer: `source->start()`. -/
def Heap.startAt (h : Heap) (id : SourceId) : Heap :=
  h.set id (BaseSource.start (h.getS id))

/-- Read through a shared pointer: `source->isActive()`. -/
def Heap.isActive (h : Heap) (id : SourceId) : Bool :=
  (h.getS id).active

/-- State of a `SceneImpl` object (src/src/core/SceneImpl.cpp): the
immutable `name_`, the `initialized_` flag, and the ordered source
collection `sources_` (`std::vector<SourcePtr>`; entries are pointers, so
each element is an `Option SourceId`). -/
structure SceneState where
  name : String
  initialized : Bool
  sources : List (Option SourceId)
deriving Repr, DecidableEq

namespace SceneImpl

/-- SceneImpl constructor: `SceneImpl(name) : name_(name), initialized_(false)`
with an empty source vector. -/
def new (name : String) : SceneState :=
  { name := name, initialized := false, sources := [] }

/-- Embeds `SceneImpl::getName`: returns `name_`. -/
def getName (s : SceneState) : String := s.name

/-- Embeds `SceneImpl::getId`: returns the constant `"scene_impl"`. -/
def getId (_ : SceneState) : String := "scene_impl"

/-- Embeds `SceneImpl::initialize`: if already initialized, logs and
returns `true`; otherwise sets `initialized_ = true` and returns `true`. -/
def initializeScene (s : SceneState) : Bool × SceneState :=
  if s.initialized then (true, s)
  else (true, { s with initialized := true })

/-- The loop in `SceneImpl::shutdown`: for each entry of `sources_`, if
the pointer is non-null and the source is active, call `stop()` on it. -/
def stopAll (srcs : List (Option SourceId)) (h : Heap) : Heap :=
  srcs.foldl (fun h o =>
    match o with
    | none => h
    | some id => if h.isActive id then h.stopAt id else h) h

/-- Embeds `SceneImpl::shutdown`: returns immediately when
`initialized_` is false; otherwise stops every non-null active source and
clears `initialized_`. -/
def shutdown (s : SceneState) (h : Heap) : SceneState × Heap :=
  if !s.initialized then (s, h)
  else ({ s with initialized := false }, stopAll s.sources h)

/-- Embeds `SceneImpl::addSource`: logs and returns when the pointer is
null; logs and returns when the identical pointer is already in
`sources_` (`std::find` on `SourcePtr`, pointer identity — the source
name is read only for the log message); otherwise appends the pointer.  -/
def addSource (s : SceneState) (src : Option SourceId) : SceneState :=
  match src with
  | none => s
  | some id =>
    if s.sources.contains (some id) then s
    else { s with sources := s.sources ++ [some id] }

/-- Embeds `SceneImpl::removeSource`: returns when the pointer is null;
returns when `std::find` does not find the identical pointer; otherwise
stops the source if it is active and erases the found occurrence. -/
def removeSource (s : SceneState) (h : Heap) (src : Option SourceId) :
    SceneState × Heap :=
  match src with
  | none => (s, h)
  | some id =>
    if s.sources.contains (some id) then
      let h2 := if h.isActive id then h.stopAt id else h
      ({ s with sources := s.sources.erase (some id) }, h2)
    else (s, h)

/-- The scan loop in `SceneImpl::render(VideoFrame&)`: walk `sources_` in
order; at the first non-null active source, return the result of its
`getVideoFrame`.  The second component is the query trace: the
identifiers whose `getVideoFrame` was actually called. -/
def renderVideoScan (h : Heap) (now : FrameTime) :
    List (Option SourceId) → Option VideoFrame × List SourceId
  | [] => (none, [])
  | none :: rest => renderVideoScan h now rest
  | some id :: rest =>
    if h.isActive id then (BaseSource.getVideoFrame (h.getS id) now, [id])
    else renderVideoScan h now rest

/-- Embeds `SceneImpl::render(VideoFrame&)`: returns `false` when not
initialized or when `sources_` is empty; otherwise scans for the first
active source.  `none` in the first component models returning `false`
with no frame delivered. -/
def renderVideo (s : SceneState) (h : Heap) (now : FrameTime) :
    Option VideoFrame × List SourceId :=
  if !s.initialized || s.sources.isEmpty then (none, [])
  else renderVideoScan h now s.sources

/-- The scan loop in `SceneImpl::render(AudioFrame&)`, with the same
query-trace instrumentation as the video scan. -/
def renderAudioScan (h : Heap) (now : FrameTime) :
    List (Option SourceId) → Option AudioFrame × List SourceId
  | [] => (none, [])
  | none :: rest => renderAudioScan h now rest
  | some id :: rest =>
    if h.isActive id then (BaseSource.getAudioFrame (h.getS id) now, [id])
    else renderAudioScan h now rest

/-- Embeds `SceneImpl::render(AudioFrame&)`: returns `false` when not
initialized or when `sources_` is empty; otherwise scans for the first
active source. -/
def renderAudio (s : SceneState) (h : Heap) (now : FrameTime) :
    Option AudioFrame × List SourceId :=
  if !s.initialized || s.sources.isEmpty then (none, [])
  else renderAudioScan h now s.sources

end SceneImpl

/-- The first non-null active source of a collection, stated
independently of the render code: drop the null entries, then take the
first identifier that dereferences to an active source. -/
def firstActive (h : Heap) (srcs : List (Option SourceId)) : Option SourceId :=
  (srcs.filterMap id).find? (fun i => h.isActive i)

/-- Heap identifier standing for a `ScenePtr` target. -/
abbrev SceneId := Nat

/-- The store of `SceneImpl` objects reachable through shared pointers. -/
abbrev SceneHeap := List SceneState

/-- Dereference a scene pointer. -/
def SceneHeap.getScene (sh : SceneHeap) (sid : SceneId) : SceneState :=
  sh.getD sid (SceneImpl.new "")

/-- State of `Engine::Impl` (src/src/core/Engine.cpp): the named-scene
table `scenes_` (`std::unordered_map<std::string, ScenePtr>`, modelled by
its key-to-pointer association) and the `streaming_` flag.  The thread
handle and mutex carry no observable state beyond the flag. -/
structure EngineImpl where
  scenes : List (String × SceneId)
  streaming : Bool
deriving Repr, DecidableEq

/-- Keyed insertion into the scene table: `scenes_[name] = scene`
replaces the mapping under an existing key and otherwise adds one. -/
def mapInsert (k : String) (v : SceneId) :
    List (String × SceneId) → List (String × SceneId)
  | [] => [(k, v)]
  | (k2, v2) :: rest =>
    if k2 = k then (k, v) :: rest else (k2, v2) :: mapInsert k v rest

namespace Engine

/-- Engine::Impl constructor: `Impl() : streaming_(false)` with an empty
scene table. -/
def new : EngineImpl := { scenes := [], streaming := false }

/-- Embeds `Engine::Impl::createScene`: constructs a fresh `SceneImpl`
named `name` (a new heap object), stores the pointer in the scene table
under `name`, and returns the pointer. -/
def createScene (e : EngineImpl) (sh : SceneHeap) (name : String) :
    EngineImpl × SceneHeap × SceneId :=
  let sid := sh.length
  ({ e with scenes := mapInsert name sid e.scenes },
   sh ++ [SceneImpl.new name], sid)

/-- Embeds `Engine::Impl::startStreaming`: returns `false` with no state
change when `streaming_` is already set; otherwise sets `streaming_`,
launches the background thread (no further observable engine state) and
returns `true`. -/
def startStreaming (e : EngineImpl) : Bool × EngineImpl :=
  if e.streaming then (false, e)
  else (true, { e with streaming := true })

/-- Embeds `Engine::Impl::stopStreaming`: returns immediately when not
streaming; otherwise clears `streaming_` and joins the background thread
(the join has no engine-state effect). -/
def stopStreaming (e : EngineImpl) : EngineImpl :=
  if !e.streaming then e else { e with streaming := false }

/-- Embeds `Engine::Impl::isStreaming`: reads `streaming_`. -/
def isStreaming (e : EngineImpl) : Bool := e.streaming

end Engine

/-- One render call made by a streaming tick: which scene was rendered
and for which media kind (video precedes audio for one scene). -/
inductive RenderEvent where
  | video (sid : SceneId)
  | audio (sid : SceneId)
deriving Repr, DecidableEq

/-- Embeds the body of `Engine::Impl::streamingLoop`
(src/src/core/Engine.cpp lines 102-113): one iteration of
`while (streaming_)` contains only placeholder comments and a 16 ms
sleep.  It reads or writes no scene, no source and no engine field, and
performs no render call, so a tick returns the state unchanged with an
empty render trace. -/
def streamingLoopTick (e : EngineImpl) (sh : SceneHeap) (h : Heap) :
    (EngineImpl × SceneHeap × Heap) × List RenderEvent :=
  ((e, sh, h), [])

/-- Modelled from the spec: the tick body the specification describes for
the streaming loop, which is absent from `Engine::Impl::streamingLoop`
(the loop body holds only comments).  Per the spec, one tick renders, for
each registered Scene in table order, video then audio, and hands the
results to the filter/encoder/output chain (a no-op here, as the chain is
absent). -/
def streamingLoopTickSpec (e : EngineImpl) : List RenderEvent :=
  e.scenes.foldr (fun kv acc => RenderEvent.video kv.2 :: RenderEvent.audio kv.2 :: acc) []

/-- A call made on one `BaseSource` object, for stating properties about
call sequences. -/
inductive SourceOp where
  | startCall
  | stopCall
  | getVideoCall
  | getAudioCall
deriving Repr, DecidableEq

/-- The state transition of one call on a `BaseSource`: `start` and
`stop` toggle `active_`; the two getters read state (and fill an
out-parameter or static buffers) but never write `active_`. -/
def SourceState.applyOp (s : SourceState) : SourceOp → SourceState
  | SourceOp.startCall => BaseSource.start s
  | SourceOp.stopCall => BaseSource.stop s
  | SourceOp.getVideoCall => s
  | SourceOp.getAudioCall => s

/-- The state after a sequence of calls on a `BaseSource`. -/
def SourceState.applyOps (s : SourceState) (ops : List SourceOp) : SourceState :=
  ops.foldl SourceState.applyOp s

/-- Embeds the `while (streaming_)` loop of `Engine::Impl::streamingLoop`
up to a bound on the number of flag observations (the flag is cleared
asynchronously by stopStreaming, so the number of iterations is a
parameter): each observation of a set flag runs one tick body and
continues; an observation of a cleared flag exits the loop. -/
def streamingLoop (fuel : Nat) (e : EngineImpl) (sh : SceneHeap) (h : Heap) :
    (EngineImpl × SceneHeap × Heap) × List RenderEvent :=
  match fuel with
  | 0 => ((e, sh, h), [])
  | Nat.succ fuel2 =>
    if e.streaming then
      let t := streamingLoopTick e sh h
      let r := streamingLoop fuel2 t.1.1 t.1.2.1 t.1.2.2
      (r.1, t.2 ++ r.2)
    else ((e, sh, h), [])

/-! Shared helper lemmas about the embedded operations. -/

theorem Heap.isActive_stopAt (h : Heap) (i j : SourceId) :
    (h.stopAt i).isActive j = if j = i then false else h.isActive j := by
  unfold Heap.stopAt Heap.isActive Heap.getS BaseSource.stop
  by_cases hij : j = i
  · subst hij
    by_cases hlt : j < h.length
    · simp [List.getD, List.getElem?_set_eq_of_lt _ hlt]
    · rw [List.set_eq_of_length_le (Nat.le_of_not_lt hlt)]
      simp [List.getD, List.getElem?_eq_none (Nat.le_of_not_lt hlt), noSource]
  · simp [List.getD, List.getElem?_set_ne (fun hh => hij hh.symm), hij]

theorem SceneImpl.stopAll_cons (o : Option SourceId) (rest : List (Option SourceId))
    (h : Heap) :
    SceneImpl.stopAll (o :: rest) h
      = SceneImpl.stopAll rest
          (match o with
           | none => h
           | some id => if h.isActive id then h.stopAt id else h) := rfl

theorem Heap.isActive_stopAll (l : List (Option SourceId)) (h : Heap) (j : SourceId) :
    (SceneImpl.stopAll l h).isActive j
      = (h.isActive j && !(l.contains (some j))) := by
  induction l generalizing h with
  | nil => simp [SceneImpl.stopAll]
  | cons o rest ih =>
    rw [SceneImpl.stopAll_cons]
    cases o with
    | none => simp [ih]
    | some i =>
      by_cases hji : j = i
      · subst hji
        cases hact : h.isActive j with
        | false => simp [hact, ih, hact]
        | true => simp [hact, ih, Heap.isActive_stopAt]
      · cases hact : h.isActive i with
        | false => simp [hact, ih, hji]
        | true =>
          simp [hact, ih, Heap.isActive_stopAt, hji,
                fun hh : some j = some i => hji (Option.some.inj hh)]

theorem firstActive_nil (h : Heap) : firstActive h [] = none := rfl

theorem firstActive_cons_none (h : Heap) (rest : List (Option SourceId)) :
    firstActive h (none :: rest) = firstActive h rest := by
  simp [firstActive, List.filterMap_cons]

theorem firstActive_cons_some (h : Heap) (i : SourceId)
    (rest : List (Option SourceId)) :
    firstActive h (some i :: rest)
      = if h.isActive i then some i else firstActive h rest := by
  by_cases hact : h.isActive i <;>
    simp [firstActive, List.filterMap_cons, List.find?_cons_of_pos,
          List.find?_cons_of_neg, hact]

theorem renderVideoScan_of_firstActive_none (h : Heap) (now : FrameTime)
    (l : List (Option SourceId)) (hf : firstActive h l = none) :
    SceneImpl.renderVideoScan h now l = (none, []) := by
  induction l with
  | nil => rfl
  | cons o rest ih =>
    cases o with
    | none =>
      rw [firstActive_cons_none] at hf
      simpa [SceneImpl.renderVideoScan] using ih hf
    | some i =>
      rw [firstActive_cons_some] at hf
      by_cases hact : h.isActive i
      · simp [hact] at hf
      · simp [hact] at hf
        simpa [SceneImpl.renderVideoScan, hact] using ih hf

theorem renderVideoScan_of_firstActive_some (h : Heap) (now : FrameTime)
    (l : List (Option SourceId)) (id : SourceId)
    (hf : firstActive h l = some id) :
    SceneImpl.renderVideoScan h now l
      = (BaseSource.getVideoFrame (h.getS id) now, [id]) := by
  induction l with
  | nil => simp [firstActive_nil] at hf
  | cons o rest ih =>
    cases o with
    | none =>
      rw [firstActive_cons_none] at hf
      simpa [SceneImpl.renderVideoScan] using ih hf
    | some i =>
      rw [firstActive_cons_some] at hf
      by_cases hact : h.isActive i
      · simp [hact] at hf
        subst hf
        simp [SceneImpl.renderVideoScan, hact]
      · simp [hact] at hf
        simpa [SceneImpl.renderVideoScan, hact] using ih hf

theorem renderAudioScan_of_firstActive_none (h : Heap) (now : FrameTime)
    (l : List (Option SourceId)) (hf : firstActive h l = none) :
    SceneImpl.renderAudioScan h now l = (none, []) := by
  induction l with
  | nil => rfl
  | cons o rest ih =>
    cases o with
    | none =>
      rw [firstActive_cons_none] at hf
      simpa [SceneImpl.renderAudioScan] using ih hf
    | some i =>
      rw [firstActive_cons_some] at hf
      by_cases hact : h.isActive i
      · simp [hact] at hf
      · simp [hact] at hf
        simpa [SceneImpl.renderAudioScan, hact] using ih hf

theorem renderAudioScan_of_firstActive_some (h : Heap) (now : FrameTime)
    (l : List (Option SourceId)) (id : SourceId)
    (hf : firstActive h l = some id) :
    SceneImpl.renderAudioScan h now l
      = (BaseSource.getAudioFrame (h.getS id) now, [id]) := by
  induction l with
  | nil => simp [firstActive_nil] at hf
  | cons o rest ih =>
    cases o with
    | none =>
      rw [firstActive_cons_none] at hf
      simpa [SceneImpl.renderAudioScan] using ih hf
    | some i =>
      rw [firstActive_cons_some] at hf
      by_cases hact : h.isActive i
      · simp [hact] at hf
        subst hf
        simp [SceneImpl.renderAudioScan, hact]
      · simp [hact] at hf
        simpa [SceneImpl.renderAudioScan, hact] using ih hf

theorem firstActive_some_ne_nil (h : Heap) (l : List (Option SourceId))
    (id : SourceId) (hf : firstActive h l = some id) : l.isEmpty = false := by
  cases l with
  | nil => simp [firstActive_nil] at hf
  | cons o rest => rfl

theorem shutdown_fst_sources (s : SceneState) (h : Heap) :
    (SceneImpl.shutdown s h).1.sources = s.sources := by
  unfold SceneImpl.shutdown
  cases s.initialized <;> simp

theorem shutdown_fst_initialized (s : SceneState) (h : Heap) :
    (SceneImpl.shutdown s h).1.initialized = false := by
  unfold SceneImpl.shutdown
  cases hinit : s.initialized <;> simp [hinit]

theorem initializeScene_fst (s : SceneState) :
    (SceneImpl.initializeScene s).1 = true := by
  unfold SceneImpl.initializeScene
  split <;> rfl

theorem initializeScene_snd_initialized (s : SceneState) :
    (SceneImpl.initializeScene s).2.initialized = true := by
  unfold SceneImpl.initializeScene
  cases hinit : s.initialized <;> simp [hinit]

theorem initializeScene_snd_sources (s : SceneState) :
    (SceneImpl.initializeScene s).2.sources = s.sources := by
  unfold SceneImpl.initializeScene
  split <;> rfl

theorem renderVideo_of_firstActive_some (s : SceneState) (h : Heap)
    (now : FrameTime) (id : SourceId) (hinit : s.initialized = true)
    (hfa : firstActive h s.sources = some id) :
    SceneImpl.renderVideo s h now
      = (BaseSource.getVideoFrame (h.getS id) now, [id]) := by
  have hne := firstActive_some_ne_nil h s.sources id hfa
  unfold SceneImpl.renderVideo
  rw [hinit, hne]
  simpa using renderVideoScan_of_firstActive_some h now s.sources id hfa

theorem renderAudio_of_firstActive_some (s : SceneState) (h : Heap)
    (now : FrameTime) (id : SourceId) (hinit : s.initialized = true)
    (hfa : firstActive h s.sources = some id) :
    SceneImpl.renderAudio s h now
      = (BaseSource.getAudioFrame (h.getS id) now, [id]) := by
  have hne := firstActive_some_ne_nil h s.sources id hfa
  unfold SceneImpl.renderAudio
  rw [hinit, hne]
  simpa using renderAudioScan_of_firstActive_some h now s.sources id hfa

theorem renderVideoScan_trace_mem (h : Heap) (now : FrameTime)
    (l : List (Option SourceId)) (j : SourceId)
    (hj : j ∈ (SceneImpl.renderVideoScan h now l).2) : some j ∈ l := by
  induction l with
  | nil => simp [SceneImpl.renderVideoScan] at hj
  | cons o rest ih =>
    cases o with
    | none =>
      exact List.mem_cons_of_mem _
        (ih (by simpa [SceneImpl.renderVideoScan] using hj))
    | some i =>
      by_cases hact : h.isActive i
      · simp [SceneImpl.renderVideoScan, hact] at hj
        simp [hj]
      · exact List.mem_cons_of_mem _
          (ih (by simpa [SceneImpl.renderVideoScan, hact] using hj))

theorem renderAudioScan_trace_mem (h : Heap) (now : FrameTime)
    (l : List (Option SourceId)) (j : SourceId)
    (hj : j ∈ (SceneImpl.renderAudioScan h now l).2) : some j ∈ l := by
  induction l with
  | nil => simp [SceneImpl.renderAudioScan] at hj
  | cons o rest ih =>
    cases o with
    | none =>
      exact List.mem_cons_of_mem _
        (ih (by simpa [SceneImpl.renderAudioScan] using hj))
    | some i =>
      by_cases hact : h.isActive i
      · simp [SceneImpl.renderAudioScan, hact] at hj
        simp [hj]
      · exact List.mem_cons_of_mem _
          (ih (by simpa [SceneImpl.renderAudioScan, hact] using hj))

theorem renderVideo_trace_mem (s : SceneState) (h : Heap) (now : FrameTime)
    (j : SourceId) (hj : j ∈ (SceneImpl.renderVideo s h now).2) :
    some j ∈ s.sources := by
  unfold SceneImpl.renderVideo at hj
  by_cases hg : !s.initialized || s.sources.isEmpty
  · simp [hg] at hj
  · rw [if_neg hg] at hj
    exact renderVideoScan_trace_mem h now s.sources j hj

theorem renderAudio_trace_mem (s : SceneState) (h : Heap) (now : FrameTime)
    (j : SourceId) (hj : j ∈ (SceneImpl.renderAudio s h now).2) :
    some j ∈ s.sources := by
  unfold SceneImpl.renderAudio at hj
  by_cases hg : !s.initialized || s.sources.isEmpty
  · simp [hg] at hj
  · rw [if_neg hg] at hj
    exact renderAudioScan_trace_mem h now s.sources j hj

theorem mapInsert_lookup_self (k : String) (v : SceneId)
    (m : List (String × SceneId)) :
    List.lookup k (mapInsert k v m) = some v := by
  induction m with
  | nil => simp [mapInsert, List.lookup]
  | cons kv rest ih =>
    obtain ⟨k2, v2⟩ := kv
    by_cases hk : k2 = k
    · subst hk
      simp [mapInsert, List.lookup]
    · have hbeq : (k == k2) = false := by
        simp
        exact fun hh => hk hh.symm
      simp [mapInsert, hk, List.lookup, hbeq]
      exact ih

theorem getScene_append_new (sh : SceneHeap) (x : SceneState) :
    SceneHeap.getScene (sh ++ [x]) sh.length = x := by
  unfold SceneHeap.getScene
  simp [List.getD, List.getElem?_append_right]

theorem getScene_append_old (sh : SceneHeap) (x : SceneState) (i : Nat)
    (hlt : i < sh.length) :
    SceneHeap.getScene (sh ++ [x]) i = SceneHeap.getScene sh i := by
  unfold SceneHeap.getScene
  simp [List.getD, List.getElem?_append, hlt]

theorem addSource_initialized (s : SceneState) (src : Option SourceId) :
    (SceneImpl.addSource s src).initialized = s.initialized := by
  cases src with
  | none => rfl
  | some id =>
    by_cases hmem : some id ∈ s.sources <;> simp [SceneImpl.addSource, hmem]

theorem foldl_addSource_initialized (adds : List (Option SourceId))
    (s : SceneState) :
    (List.foldl SceneImpl.addSource s adds).initialized = s.initialized := by
  induction adds generalizing s with
  | nil => rfl
  | cons a rest ih =>
    rw [List.foldl_cons, ih, addSource_initialized]

theorem renderVideo_uninitialized (s : SceneState) (h : Heap)
    (now : FrameTime) (hinit : s.initialized = false) :
    SceneImpl.renderVideo s h now = (none, []) := by
  simp [SceneImpl.renderVideo, hinit]

theorem renderAudio_uninitialized (s : SceneState) (h : Heap)
    (now : FrameTime) (hinit : s.initialized = false) :
    SceneImpl.renderAudio s h now = (none, []) := by
  simp [SceneImpl.renderAudio, hinit]

/-! Theorems for the specification claims. -/

/-- C1: render(videoFrame) and render(audioFrame) return false when the
Scene is not initialized or its source collection is empty; otherwise the
scan returns the result of getVideoFrame/getAudioFrame on the first
active source, and the query trace shows no source after the first
active one is queried that tick. -/
theorem render_first_active_wins (s : SceneState) (h : Heap) (now : FrameTime) :
    (s.initialized = false ∨ s.sources = [] →
      SceneImpl.renderVideo s h now = (none, []) ∧
      SceneImpl.renderAudio s h now = (none, [])) ∧
    (∀ id, s.initialized = true → firstActive h s.sources = some id →
      SceneImpl.renderVideo s h now
        = (BaseSource.getVideoFrame (h.getS id) now, [id]) ∧
      SceneImpl.renderAudio s h now
        = (BaseSource.getAudioFrame (h.getS id) now, [id])) := by
  constructor
  · intro hcase
    unfold SceneImpl.renderVideo SceneImpl.renderAudio
    rcases hcase with hinit | hempty
    · simp [hinit]
    · simp [hempty]
  · intro id hinit hfa
    have hne := firstActive_some_ne_nil h s.sources id hfa
    unfold SceneImpl.renderVideo SceneImpl.renderAudio
    rw [hinit, hne]
    simp only [Bool.not_true, Bool.or_self, Bool.false_or, if_false, ite_false,
      Bool.false_eq_true, if_neg]
    exact ⟨renderVideoScan_of_firstActive_some h now s.sources id hfa,
           renderAudioScan_of_firstActive_some h now s.sources id hfa⟩

/-- Concrete instance of C1: an initialized scene holding a null entry,
an inactive source 0, an active source 1 and an active source 2 renders
the frame of source 1 and queries only source 1. -/
theorem render_first_active_wins_witness :
    SceneImpl.renderVideo
        { name := "scene", initialized := true,
          sources := [none, some 0, some 1, some 2] }
        [{ name := "a", active := false }, { name := "b", active := true },
         { name := "c", active := true }] 5
      = (BaseSource.getVideoFrame
          (Heap.getS
            [{ name := "a", active := false }, { name := "b", active := true },
             { name := "c", active := true }] 1) 5, [1]) :=
  ((render_first_active_wins _ _ _).2 1 rfl (by decide)).1

/-- C3 counterexample: a Scene that was never initialized but holds an
active source.  SceneImpl::shutdown returns immediately on the
early-exit for uninitialized scenes, so after shutdown() the held source
0 is still active — refuting that after shutdown() every source held by
the Scene is inactive in any lifecycle state. -/
theorem shutdown_counterexample :
    some 0 ∈ (SceneImpl.shutdown
        { name := "s", initialized := false, sources := [some 0] }
        [{ name := "cam", active := true }]).1.sources ∧
    Heap.isActive (SceneImpl.shutdown
        { name := "s", initialized := false, sources := [some 0] }
        [{ name := "cam", active := true }]).2 0 = true := by
  exact ⟨by decide, rfl⟩

/-- C3 (amended): shutdown is total and safe in every lifecycle state.
When the Scene was never initialized it returns immediately without
touching any source, so held sources keep their activity; when the Scene
is initialized, shutdown stops every active held source and clears the
initialized flag, so afterwards every source held by the Scene is
inactive. -/
theorem shutdown_stops_held_sources (s : SceneState) (h : Heap) :
    (s.initialized = false → SceneImpl.shutdown s h = (s, h)) ∧
    (s.initialized = true →
      (SceneImpl.shutdown s h).1.initialized = false ∧
      (SceneImpl.shutdown s h).1.sources = s.sources ∧
      ∀ id, some id ∈ s.sources →
        ((SceneImpl.shutdown s h).2).isActive id = false) := by
  constructor
  · intro hinit
    simp [SceneImpl.shutdown, hinit]
  · intro hinit
    refine ⟨shutdown_fst_initialized s h, shutdown_fst_sources s h, ?_⟩
    intro id hmem
    have hc : s.sources.contains (some id) = true := by simpa using hmem
    simp [SceneImpl.shutdown, hinit, Heap.isActive_stopAll, hc]
    exact fun _ => hmem

/-- Concrete instance of C3 (amended): an initialized scene with an
active source 0 and an inactive source 1; after shutdown source 0 is
inactive. -/
theorem shutdown_stops_held_sources_witness :
    ((SceneImpl.shutdown
        { name := "s", initialized := true, sources := [some 0, some 1] }
        [{ name := "a", active := true }, { name := "b", active := false }]).2).isActive 0
      = false :=
  ((shutdown_stops_held_sources _ _).2 rfl).2.2 0 (by decide)

/-- C10: shutdown leaves the source collection unchanged and the
lifecycle re-enterable: after shutdown the previously added sources are
still held; initialize() on the shut-down scene returns true; and a
render on the re-initialized scene scans those same sources again,
returning the frame of whichever held source is the first active one
under the then-current heap. -/
theorem shutdown_reenterable (s : SceneState) (h : Heap) :
    (SceneImpl.shutdown s h).1.sources = s.sources ∧
    (SceneImpl.initializeScene (SceneImpl.shutdown s h).1).1 = true ∧
    (∀ (h2 : Heap) (now : FrameTime) (id : SourceId),
      firstActive h2 s.sources = some id →
      SceneImpl.renderVideo
          (SceneImpl.initializeScene (SceneImpl.shutdown s h).1).2 h2 now
        = (BaseSource.getVideoFrame (h2.getS id) now, [id])) := by
  refine ⟨shutdown_fst_sources s h, initializeScene_fst _, ?_⟩
  intro h2 now id hfa
  have hsrc : (SceneImpl.initializeScene (SceneImpl.shutdown s h).1).2.sources
      = s.sources := by
    rw [initializeScene_snd_sources, shutdown_fst_sources]
  exact renderVideo_of_firstActive_some _ h2 now id
    (initializeScene_snd_initialized _) (by rw [hsrc]; exact hfa)

/-- Concrete instance of C10: shut down an initialized scene holding
source 0, restart the source, re-initialize, and render the same source
again. -/
theorem shutdown_reenterable_witness :
    SceneImpl.renderVideo
        (SceneImpl.initializeScene
          (SceneImpl.shutdown
            { name := "s", initialized := true, sources := [some 0] }
            [{ name := "cam", active := true }]).1).2
        [{ name := "cam", active := true }] 7
      = (BaseSource.getVideoFrame
          (Heap.getS [{ name := "cam", active := true }] 0) 7, [0]) :=
  (shutdown_reenterable
      { name := "s", initialized := true, sources := [some 0] }
      [{ name := "cam", active := true }]).2.2
    [{ name := "cam", active := true }] 7 0 (by decide)

/-- C5: removeSource is a no-op when given a null pointer or a source
not present in the Scene.  When the source is present it is first
stopped (the heap entry is inactive afterwards) and then unlinked from
the collection, and a render performed immediately after removeSource
never queries — hence never returns a frame produced by — the removed
instance.  The no-duplicates hypothesis is the collection invariant
that addSource maintains. -/
theorem removeSource_stops_then_unlinks (s : SceneState) (h : Heap)
    (src : Option SourceId) (hnd : s.sources.Nodup) :
    (src = none ∨ src ∉ s.sources → SceneImpl.removeSource s h src = (s, h)) ∧
    (∀ id, src = some id → some id ∈ s.sources →
      ((SceneImpl.removeSource s h src).2).isActive id = false ∧
      (SceneImpl.removeSource s h src).1.sources = s.sources.erase (some id) ∧
      some id ∉ (SceneImpl.removeSource s h src).1.sources ∧
      ∀ now : FrameTime,
        id ∉ (SceneImpl.renderVideo (SceneImpl.removeSource s h src).1
                (SceneImpl.removeSource s h src).2 now).2 ∧
        id ∉ (SceneImpl.renderAudio (SceneImpl.removeSource s h src).1
                (SceneImpl.removeSource s h src).2 now).2) := by
  constructor
  · rintro (rfl | habs)
    · rfl
    · cases src with
      | none => rfl
      | some id => simp [SceneImpl.removeSource, habs]
  · rintro id rfl hmem
    have hsrcs : (SceneImpl.removeSource s h (some id)).1.sources
        = s.sources.erase (some id) := by
      simp [SceneImpl.removeSource, hmem]
    have hnm : some id ∉ (SceneImpl.removeSource s h (some id)).1.sources := by
      rw [hsrcs]; exact hnd.not_mem_erase
    refine ⟨?_, hsrcs, hnm, ?_⟩
    · cases hact : h.isActive id with
      | true =>
        simp [SceneImpl.removeSource, hmem, hact, Heap.isActive_stopAt]
      | false =>
        simp [SceneImpl.removeSource, hmem, hact]
    · intro now
      constructor
      · intro hjin
        exact hnm (renderVideo_trace_mem _ _ _ _ hjin)
      · intro hjin
        exact hnm (renderAudio_trace_mem _ _ _ _ hjin)

/-- Concrete instance of C5: removing the active source 0 from a
two-source scene leaves heap entry 0 stopped. -/
theorem removeSource_stops_then_unlinks_witness :
    ((SceneImpl.removeSource
        { name := "s", initialized := true, sources := [some 0, some 1] }
        [{ name := "a", active := true }, { name := "b", active := true }]
        (some 0)).2).isActive 0 = false :=
  (((removeSource_stops_then_unlinks
      { name := "s", initialized := true, sources := [some 0, some 1] }
      [{ name := "a", active := true }, { name := "b", active := true }]
      (some 0) (by decide)).2 0 rfl (by decide))).1

/-- C6: addSource is a no-op on a null pointer and on a pointer already
present; identity is pointer identity, not name equality — two distinct
references are both appended whatever their names, since the presence
check never consults a name; an absent pointer is appended at the back
(insertion order preserved); and repeated addition of the identical
reference is idempotent, so the count grows by at most one. -/
theorem addSource_reference_identity (s : SceneState) (src : Option SourceId) :
    (SceneImpl.addSource s none = s) ∧
    (∀ id, some id ∈ s.sources → SceneImpl.addSource s (some id) = s) ∧
    (∀ id, some id ∉ s.sources →
      (SceneImpl.addSource s (some id)).sources = s.sources ++ [some id]) ∧
    (∀ id1 id2, id1 ≠ id2 → some id1 ∉ s.sources → some id2 ∉ s.sources →
      some id1 ∈ (SceneImpl.addSource (SceneImpl.addSource s (some id1))
                    (some id2)).sources ∧
      some id2 ∈ (SceneImpl.addSource (SceneImpl.addSource s (some id1))
                    (some id2)).sources) ∧
    (SceneImpl.addSource (SceneImpl.addSource s src) src
      = SceneImpl.addSource s src) := by
  refine ⟨rfl, ?_, ?_, ?_, ?_⟩
  · intro id hmem
    simp [SceneImpl.addSource, hmem]
  · intro id habs
    simp [SceneImpl.addSource, habs]
  · intro id1 id2 hne habs1 habs2
    have h2 : some id2 ∉ s.sources ++ [some id1] := by
      intro hh
      rcases List.mem_append.mp hh with hh | hh
      · exact habs2 hh
      · simp at hh
        exact hne hh.symm
    simp [SceneImpl.addSource, habs1, h2]
  · cases src with
    | none => rfl
    | some id =>
      by_cases hmem : some id ∈ s.sources
      · simp [SceneImpl.addSource, hmem]
      · have h2 : some id ∈ s.sources ++ [some id] := by simp
        simp [SceneImpl.addSource, hmem, h2]

/-- Concrete instance of C6: adding source 0 to a scene already holding
it leaves the scene unchanged. -/
theorem addSource_reference_identity_witness :
    SceneImpl.addSource
        { name := "s", initialized := false, sources := [some 0] } (some 0)
      = { name := "s", initialized := false, sources := [some 0] } :=
  (addSource_reference_identity
      { name := "s", initialized := false, sources := [some 0] }
      (some 0)).2.1 0 (by decide)

/-- C7: after stop() returns, every subsequent getVideoFrame and
getAudioFrame call returns false and delivers no frame, for the whole
remainder of any call sequence that contains no start(); the source
simply reports inactive (getters return none), with no error state. -/
theorem stop_silences_until_start (st : SourceState) (ops : List SourceOp)
    (hns : SourceOp.startCall ∉ ops) (now : FrameTime) :
    BaseSource.getVideoFrame ((BaseSource.stop st).applyOps ops) now = none ∧
    BaseSource.getAudioFrame ((BaseSource.stop st).applyOps ops) now = none ∧
    BaseSource.isActive ((BaseSource.stop st).applyOps ops) = false := by
  have key : ∀ (ops2 : List SourceOp) (s : SourceState),
      SourceOp.startCall ∉ ops2 → s.active = false →
      (s.applyOps ops2).active = false := by
    intro ops2
    induction ops2 with
    | nil => intro s _ hs; exact hs
    | cons o rest ih =>
      intro s hno hs
      have hnr : SourceOp.startCall ∉ rest := fun hh => hno (List.mem_cons_of_mem _ hh)
      have hho : o ≠ SourceOp.startCall := fun hh => hno (hh ▸ List.mem_cons_self o rest)
      cases o with
      | startCall => exact absurd rfl hho
      | stopCall => exact ih _ hnr rfl
      | getVideoCall => exact ih _ hnr hs
      | getAudioCall => exact ih _ hnr hs
  have hinact : ((BaseSource.stop st).applyOps ops).active = false :=
    key ops (BaseSource.stop st) hns rfl
  refine ⟨?_, ?_, hinact⟩
  · simp [BaseSource.getVideoFrame, hinact]
  · simp [BaseSource.getAudioFrame, hinact]

/-- Concrete instance of C7: after stop, a stop and two getter calls
later, getVideoFrame still returns no frame. -/
theorem stop_silences_until_start_witness :
    BaseSource.getVideoFrame
        ((BaseSource.stop { name := "cam", active := true }).applyOps
          [SourceOp.getVideoCall, SourceOp.stopCall, SourceOp.getAudioCall,
           SourceOp.getVideoCall]) 3 = none :=
  (stop_silences_until_start { name := "cam", active := true }
    [SourceOp.getVideoCall, SourceOp.stopCall, SourceOp.getAudioCall,
     SourceOp.getVideoCall] (by decide) 3).1

/-- C4: startStreaming returns false and changes no engine state when
already streaming (after a successful start, a second consecutive call
returns false while isStreaming stays true); stopStreaming while not
streaming is a no-op; a start from idle succeeds and isStreaming is then
true; after stopStreaming returns, isStreaming is false. -/
theorem streaming_start_stop_protocol (e : EngineImpl) :
    (e.streaming = true →
      Engine.startStreaming e = (false, e) ∧ Engine.isStreaming e = true) ∧
    (∀ ok e1, Engine.startStreaming e = (ok, e1) → ok = true →
      Engine.startStreaming e1 = (false, e1) ∧ Engine.isStreaming e1 = true) ∧
    (e.streaming = false → Engine.stopStreaming e = e) ∧
    (e.streaming = false →
      Engine.startStreaming e = (true, { e with streaming := true })) ∧
    Engine.isStreaming (Engine.stopStreaming e) = false := by
  refine ⟨?_, ?_, ?_, ?_, ?_⟩
  · intro hs
    exact ⟨by simp [Engine.startStreaming, hs], hs⟩
  · intro ok e1 hstart hok
    subst hok
    cases hs : e.streaming with
    | true => simp [Engine.startStreaming, hs] at hstart
    | false =>
      simp [Engine.startStreaming, hs] at hstart
      rw [← hstart]
      exact ⟨by simp [Engine.startStreaming], rfl⟩
  · intro hs
    simp [Engine.stopStreaming, hs]
  · intro hs
    simp [Engine.startStreaming, hs]
  · cases hs : e.streaming with
    | true => simp [Engine.stopStreaming, Engine.isStreaming, hs]
    | false => simp [Engine.stopStreaming, Engine.isStreaming, hs]

/-- Concrete instance of C4: from the fresh engine, a successful start
followed by a second start: the second call fails and streaming stays
on. -/
theorem streaming_start_stop_protocol_witness :
    Engine.startStreaming { scenes := [], streaming := true }
        = (false, { scenes := [], streaming := true }) ∧
    Engine.isStreaming { scenes := [], streaming := true } = true :=
  (streaming_start_stop_protocol Engine.new).2.1 true
    { scenes := [], streaming := true } rfl rfl

/-- C8: createScene(name) creates a fresh Scene whose getName is name,
registered in the scene table under name; a second createScene with the
same name registers a different fresh Scene (the mapping is replaced),
while the first Scene object is untouched on the heap, so an externally
held reference to it stays valid. -/
theorem createScene_registers (e : EngineImpl) (sh : SceneHeap) (name : String) :
    SceneImpl.getName
        (SceneHeap.getScene (Engine.createScene e sh name).2.1
          (Engine.createScene e sh name).2.2) = name ∧
    List.lookup name (Engine.createScene e sh name).1.scenes
      = some (Engine.createScene e sh name).2.2 ∧
    (Engine.createScene (Engine.createScene e sh name).1
        (Engine.createScene e sh name).2.1 name).2.2
      ≠ (Engine.createScene e sh name).2.2 ∧
    List.lookup name
        (Engine.createScene (Engine.createScene e sh name).1
          (Engine.createScene e sh name).2.1 name).1.scenes
      = some (Engine.createScene (Engine.createScene e sh name).1
          (Engine.createScene e sh name).2.1 name).2.2 ∧
    SceneHeap.getScene
        (Engine.createScene (Engine.createScene e sh name).1
          (Engine.createScene e sh name).2.1 name).2.1
        (Engine.createScene e sh name).2.2
      = SceneHeap.getScene (Engine.createScene e sh name).2.1
          (Engine.createScene e sh name).2.2 := by
  refine ⟨?_, ?_, ?_, ?_, ?_⟩
  · simp [Engine.createScene, getScene_append_new, SceneImpl.getName,
      SceneImpl.new]
  · simp [Engine.createScene, mapInsert_lookup_self]
  · simp [Engine.createScene]
  · simp [Engine.createScene, mapInsert_lookup_self]
  · simp only [Engine.createScene]
    exact getScene_append_old (sh ++ [SceneImpl.new name]) (SceneImpl.new name)
      sh.length (by simp)

/-- C9: the Scene returned by createScene starts uninitialized and stays
uninitialized under any sequence of addSource calls; until initialize()
is invoked on it, render(videoFrame) and render(audioFrame) return false
with no source queried, whatever the heap — even when the added sources
are active. -/
theorem fresh_scene_renders_false (e : EngineImpl) (sh : SceneHeap)
    (name : String) (adds : List (Option SourceId)) (h : Heap)
    (now : FrameTime) :
    (List.foldl SceneImpl.addSource
        (SceneHeap.getScene (Engine.createScene e sh name).2.1
          (Engine.createScene e sh name).2.2) adds).initialized = false ∧
    SceneImpl.renderVideo
        (List.foldl SceneImpl.addSource
          (SceneHeap.getScene (Engine.createScene e sh name).2.1
            (Engine.createScene e sh name).2.2) adds) h now = (none, []) ∧
    SceneImpl.renderAudio
        (List.foldl SceneImpl.addSource
          (SceneHeap.getScene (Engine.createScene e sh name).2.1
            (Engine.createScene e sh name).2.2) adds) h now = (none, []) := by
  have hfresh : SceneHeap.getScene (Engine.createScene e sh name).2.1
      (Engine.createScene e sh name).2.2 = SceneImpl.new name := by
    simp [Engine.createScene, getScene_append_new]
  have hinit : (List.foldl SceneImpl.addSource
      (SceneHeap.getScene (Engine.createScene e sh name).2.1
        (Engine.createScene e sh name).2.2) adds).initialized = false := by
    rw [foldl_addSource_initialized, hfresh]
    rfl
  exact ⟨hinit, renderVideo_uninitialized _ h now hinit,
         renderAudio_uninitialized _ h now hinit⟩

/-- C2 counterexample: one registered, initialized Scene holding an
active source.  The specification-described tick would render that Scene
(video then audio), but the embedded loop body of
Engine::Impl::streamingLoop performs no render call at all: its render
trace is empty while the spec-modelled trace is not. -/
theorem streamingLoopTick_counterexample :
    (streamingLoopTick { scenes := [("main", 0)], streaming := true }
        [{ name := "main", initialized := true, sources := [some 0] }]
        [{ name := "cam", active := true }]).2 = ([] : List RenderEvent) ∧
    streamingLoopTickSpec { scenes := [("main", 0)], streaming := true }
      = [RenderEvent.video 0, RenderEvent.audio 0] ∧
    ([] : List RenderEvent) ≠ [RenderEvent.video 0, RenderEvent.audio 0] :=
  ⟨rfl, rfl, by decide⟩

/-- C2 (amended): while Running, the streaming loop only re-checks the
streaming flag once per fixed 16 ms sleep: however many iterations it
runs, it performs no render call on any registered Scene, hands nothing
to any filter/encoder/output chain, and leaves the engine, the scenes
and the sources unchanged (the render steps exist only as placeholder
comments in the loop body). -/
theorem streamingLoop_no_renders (fuel : Nat) (e : EngineImpl)
    (sh : SceneHeap) (h : Heap) :
    streamingLoop fuel e sh h = ((e, sh, h), []) := by
  induction fuel with
  | zero => rfl
  | succ n ih =>
    unfold streamingLoop
    cases hs : e.streaming <;> simp [hs, streamingLoopTick, ih]

end SimpleOBS
